import Mathlib

/-!
Verification of the legacy PLC simulator (`src/legacy_plc.cpp`).

The development shallowly embeds the scan-cycle engine of the `LegacyPLC`
class: the `SystemState` process image, the per-cycle phases
(`scan_inputs`, `execute_control_logic`, `update_outputs`, logging, counter
increment), and the two protocol front-ends (`process_legacy_command` for
the ASCII control protocol and `process_http_request` for the HTTP/JSON
management protocol).  Machine integers are modelled as `Nat` with explicit
`% 2 ^ w` (or `&&&` masks) exactly where the C++ code relies on fixed-width
behaviour.  The C++ `std::stoi` used by the command parser can throw; it is
modelled as a function into `Except CppException Int`, and an `Except.error`
result marks an uncaught C++ exception (the process has no handler, so such
an exception terminates the program).
-/

namespace LegacyPLC

/-- Exceptions that `std::stoi` can throw in `process_legacy_command`.
There is no try/catch anywhere in the program, so an error value here
models a crash of the whole process. -/
inductive CppException where
  | invalidArgument
  | outOfRange
deriving DecidableEq, Repr

deriving instance DecidableEq for Except

/-- The process image: struct `SystemState` of `legacy_plc.cpp` (lines
33-47).  `inputs`/`outputs`/`registers` are the fixed-size `uint16_t`
arrays, `error_codes` the `uint8_t` bitmask, `cycle_count` the wrapping
`uint32_t` counter. -/
structure PLCState where
  running : Bool
  cycle_count : Nat
  inputs : Fin 16 → Nat
  outputs : Fin 16 → Nat
  registers : Fin 256 → Nat
  error_codes : Nat
  last_error : String

/-- State after construction and `initialize_system`/`load_control_program`:
the `SystemState` constructor zeroes everything, `load_control_program`
(lines 209-221) sets the default configuration registers, and
`initialize_system` sets `running = true`. -/
def initState : PLCState :=
  { running := true
  , cycle_count := 0
  , inputs := fun _ => 0
  , outputs := fun _ => 0
  , registers := fun i =>
      if i.val = 0 then 100        -- Setpoint temperature
      else if i.val = 1 then 50    -- Alarm threshold
      else if i.val = 2 then 1000  -- Timer preset
      else if i.val = 10 then 0x1234 -- Device ID
      else 0
  , error_codes := 0
  , last_error := "" }

/-- One sample of the simulated sensors.  `scan_inputs` (lines 253-297)
computes these from `rand()`/`sin`/the cycle count; the exact values are
explicitly not a contract, so the sample is an arbitrary parameter here.
Each value is stored through a `uint16_t` array slot, hence the `% 65536`
in `scan_inputs`. -/
structure InputSample where
  temperature : Nat
  cycleIn : Nat
  runEnable : Nat
  pressure : Nat

/-- Input scan phase (`scan_inputs`, lines 253-297): both build variants
write exactly inputs 0 (temperature), 1 (cycle input), 2 (run enable) and
3 (pressure) and nothing else. -/
def scan_inputs (s : PLCState) (smp : InputSample) : PLCState :=
  { s with inputs := fun i =>
      if i.val = 0 then smp.temperature % 65536
      else if i.val = 1 then smp.cycleIn % 65536
      else if i.val = 2 then smp.runEnable % 65536
      else if i.val = 3 then smp.pressure % 65536
      else s.inputs i }

/-- Program execution phase (`execute_control_logic`, lines 299-327).
Rung 2 writes `outputs[0]`, rung 3 writes `outputs[1]` and bit 0 of
`error_codes` (`|= 0x01` / `&= ~0x01`; on the `uint8_t` value `~0x01` is
the mask `0xFE`), rung 4 writes `registers[20] = cycle_count & 0xFFFF`,
rung 5 writes the heartbeat `outputs[15]`. -/
def execute_control_logic (s : PLCState) : PLCState :=
  -- Rung 1 names `run_enable = (inputs[2] == 1)`; it is inlined into the
  -- rung-2 condition below.
  let heater : Nat :=
    if s.inputs ⟨2, by omega⟩ = 1 ∧ s.inputs ⟨0, by omega⟩ < s.registers ⟨0, by omega⟩
    then 1 else 0
  let alarmOut : Nat :=
    if s.inputs ⟨0, by omega⟩ > s.registers ⟨1, by omega⟩ then 1 else 0
  let errs : Nat :=
    if s.inputs ⟨0, by omega⟩ > s.registers ⟨1, by omega⟩
    then s.error_codes ||| 0x01 else s.error_codes &&& 0xFE
  let heartbeat : Nat := if s.cycle_count % 10 < 5 then 1 else 0
  { s with
    outputs := fun i =>
      if i.val = 0 then heater
      else if i.val = 1 then alarmOut
      else if i.val = 15 then heartbeat
      else s.outputs i
  , registers := fun i =>
      if i.val = 20 then s.cycle_count &&& 0xFFFF
      else s.registers i
  , error_codes := errs }

/-- Output update phase (`update_outputs`, lines 329-336): mirrors the
temperature into `registers[100]` and the heater status into
`registers[101]`. -/
def update_outputs (s : PLCState) : PLCState :=
  { s with registers := fun i =>
      if i.val = 100 then s.inputs ⟨0, by omega⟩
      else if i.val = 101 then s.outputs ⟨0, by omega⟩
      else s.registers i }

/-- The state after the three mutation phases of one executed cycle, before
the end-of-cycle counter increment.  This is exactly the state both
protocol handlers and the logger observe during that cycle
(`run_scan_cycle`, lines 227-242: scan, execute, update, then network and
logging, then `cycle_count++`). -/
def cycle_body (s : PLCState) (smp : InputSample) : PLCState :=
  update_outputs (execute_control_logic (scan_inputs s smp))

/-- One full executed scan cycle (`run_scan_cycle`, lines 223-251): the
three mutation phases followed by `state.cycle_count++` on the wrapping
32-bit counter.  The network and logging phases read but never write the
process image. -/
def run_scan_cycle (s : PLCState) (smp : InputSample) : PLCState :=
  let m := cycle_body s smp
  { m with cycle_count := (m.cycle_count + 1) % 4294967296 }

/-- States reachable at executed-cycle boundaries: the initial state and
closure under full scan cycles with arbitrary sensor samples. -/
inductive Reachable : PLCState → Prop where
  | init : Reachable initState
  | step : ∀ {s : PLCState} (smp : InputSample), Reachable s → Reachable (run_scan_cycle s smp)

/-- States in which the process image can be observed: cycle-boundary
states, plus the mid-cycle states seen by the protocol handlers and the
logger (after `update_outputs`, before the counter increment). -/
def Observable (t : PLCState) : Prop :=
  Reachable t ∨ ∃ s smp, Reachable s ∧ t = cycle_body s smp

/-- Whitespace skipping performed by `strtol` inside `std::stoi` (C locale
`isspace`). -/
def skipSpaces : List Char → List Char
  | [] => []
  | c :: cs =>
      if c = ' ' ∨ c = '\t' ∨ c = '\n' ∨ c = '\x0b' ∨ c = '\x0c' ∨ c = '\r' then skipSpaces cs
      else c :: cs

/-- Value of the longest leading run of decimal digits, accumulator style,
as computed by `strtol`. -/
def digitsValAux (acc : Nat) : List Char → Nat
  | [] => acc
  | c :: cs => if c.isDigit then digitsValAux (acc * 10 + (c.toNat - 48)) cs else acc

/-- Digit-run parsing and range check of `std::stoi` after sign handling:
no leading digit throws `std::invalid_argument`; a parsed value outside
the 32-bit `int` range throws `std::out_of_range`. -/
def stoiDigits (sign : Int) : List Char → Except CppException Int
  | [] => .error .invalidArgument
  | c :: cs =>
      if c.isDigit then
        let v : Int := sign * ((digitsValAux 0 (c :: cs) : Nat) : Int)
        if v > 2147483647 ∨ v < -2147483648 then .error .outOfRange else .ok v
      else .error .invalidArgument

/-- Model of `std::stoi(s)` (base 10): skip whitespace, optional sign,
longest digit run; `Except.error` models the thrown C++ exception. -/
def stoi (s : String) : Except CppException Int :=
  match skipSpaces s.data with
  | '-' :: rest => stoiDigits (-1) rest
  | '+' :: rest => stoiDigits 1 rest
  | rest => stoiDigits 1 rest

/-- Left-pad a string with '0' to a minimum width, the effect of
`std::setfill('0') << std::setw(w)` on the next insertion. -/
def zpadLeft (w : Nat) (s : String) : String :=
  String.mk (List.replicate (w - s.length) '0') ++ s

/-- Decimal rendering padded to minimum width 4, as produced by
`response << std::setfill('0') << std::setw(4) << value`.  Note `setw`
gives a minimum field width: values above 9999 print with more than four
characters. -/
def zpad4 (n : Nat) : String :=
  zpadLeft 4 (Nat.repr n)

/-- Lowercase hexadecimal digit, as printed by `std::hex`. -/
def hexDigitChar (n : Nat) : Char :=
  if n < 10 then Char.ofNat (48 + n) else Char.ofNat (87 + n)

/-- Accumulator loop for lowercase hexadecimal rendering. -/
def hexAux (n : Nat) (acc : List Char) : List Char :=
  if h : n < 16 then hexDigitChar n :: acc
  else hexAux (n / 16) (hexDigitChar (n % 16) :: acc)
termination_by n
decreasing_by
  exact Nat.div_lt_self (by omega) (by omega)

/-- Lowercase hexadecimal rendering of a number, as printed by
`std::hex` (no padding unless `setw` is active). -/
def hexRepr (n : Nat) : String :=
  String.mk (hexAux n [])

/-- Control-protocol command processing (`process_legacy_command`, lines
381-424).  Dispatch is on the first two characters (`substr(0,2)`) for
`RI`/`RO`/`RR` and the first six for `STATUS`; the address suffix goes
through `std::stoi`, whose exceptions propagate (there is no handler
anywhere in the program).  Every produced response ends in CRLF. -/
def process_legacy_command (now : String) (st : PLCState) (command : String) :
    Except CppException String :=
  if command.take 2 = "RI" then
    (stoi (command.drop 2)).bind fun addr =>
      if h : 0 ≤ addr ∧ addr < 16 then
        .ok (zpad4 (st.inputs ⟨addr.toNat, by omega⟩) ++ "\r\n")
      else
        .ok ("ERR1" ++ "\r\n")
  else if command.take 2 = "RO" then
    (stoi (command.drop 2)).bind fun addr =>
      if h : 0 ≤ addr ∧ addr < 16 then
        .ok (zpad4 (st.outputs ⟨addr.toNat, by omega⟩) ++ "\r\n")
      else
        .ok ("ERR1" ++ "\r\n")
  else if command.take 2 = "RR" then
    (stoi (command.drop 2)).bind fun addr =>
      if h : 0 ≤ addr ∧ addr < 256 then
        .ok (zpad4 (st.registers ⟨addr.toNat, by omega⟩) ++ "\r\n")
      else
        .ok ("ERR1" ++ "\r\n")
  else if command.take 6 = "STATUS" then
    .ok ("RUN," ++ zpadLeft 8 (Nat.repr st.cycle_count) ++ "," ++
      zpadLeft 2 (hexRepr st.error_codes) ++ "," ++ now ++ "\r\n")
  else
    .ok ("ERR0" ++ "\r\n")

/-- HTTP/JSON management response (`process_http_request`, lines 426-516),
for the default build variant (neither `VIRTUAL_HARDWARE` nor
`RASPBERRY_PI` defined): a fixed status line and headers followed by the
JSON snapshot of the process image.  The request content is ignored by the
source (unused parameter), so it does not appear here. -/
def process_http_request (now : String) (st : PLCState) : String :=
  "HTTP/1.1 200 OK\r\n" ++
  "Content-Type: application/json\r\n" ++
  "Access-Control-Allow-Origin: *\r\n" ++
  "Cache-Control: no-cache\r\n" ++
  "Connection: close\r\n" ++
  "\r\n" ++
  "\x7b\n" ++
  "  \"device_info\": \x7b\n" ++
  "    \"name\": \"Legacy PLC Simulator\",\n" ++
  "    \"version\": \"2.1\",\n" ++
  "    \"model\": \"Schneider/Modicon TSX Premium (circa 2004)\",\n" ++
  "    \"mode\": \"Physical Raspberry Pi\",\n" ++
  "    \"hardware\": \"Pi B v2 - 512MB RAM\",\n" ++
  "    \"uptime_cycles\": " ++ Nat.repr st.cycle_count ++ "\n" ++
  "  \x7d,\n" ++
  "  \"operational_status\": \x7b\n" ++
  "    \"status\": \"" ++ (if st.running then "RUNNING" else "STOPPED") ++ "\",\n" ++
  "    \"scan_rate_ms\": 100,\n" ++
  "    \"error_codes\": \"0x" ++ hexRepr st.error_codes ++ "\",\n" ++
  "    \"last_error\": \"" ++ st.last_error ++ "\"\n" ++
  "  \x7d,\n" ++
  "  \"process_data\": \x7b\n" ++
  "    \"inputs\": \x7b\n" ++
  "      \"temperature_raw\": " ++ Nat.repr (st.inputs ⟨0, by omega⟩) ++ ",\n" ++
  "      \"cycle_input\": " ++ Nat.repr (st.inputs ⟨1, by omega⟩) ++ ",\n" ++
  "      \"run_enable\": " ++ Nat.repr (st.inputs ⟨2, by omega⟩) ++ ",\n" ++
  "      \"pressure_raw\": " ++ Nat.repr (st.inputs ⟨3, by omega⟩) ++ "\n" ++
  "    \x7d,\n" ++
  "    \"outputs\": \x7b\n" ++
  "      \"heater_command\": " ++ Nat.repr (st.outputs ⟨0, by omega⟩) ++ ",\n" ++
  "      \"high_temp_alarm\": " ++ Nat.repr (st.outputs ⟨1, by omega⟩) ++ ",\n" ++
  "      \"heartbeat_led\": " ++ Nat.repr (st.outputs ⟨15, by omega⟩) ++ "\n" ++
  "    \x7d,\n" ++
  "    \"registers\": \x7b\n" ++
  "      \"temperature_setpoint\": " ++ Nat.repr (st.registers ⟨0, by omega⟩) ++ ",\n" ++
  "      \"alarm_threshold\": " ++ Nat.repr (st.registers ⟨1, by omega⟩) ++ ",\n" ++
  "      \"current_temperature\": " ++ Nat.repr (st.registers ⟨100, by omega⟩) ++ ",\n" ++
  "      \"heater_status\": " ++ Nat.repr (st.registers ⟨101, by omega⟩) ++ "\n" ++
  "    \x7d\n" ++
  "  \x7d,\n" ++
  "  \"network_interfaces\": \x7b\n" ++
  "    \"control_protocol\": \x7b\n" ++
  "      \"endpoint\": \"*:9001\",\n" ++
  "      \"protocol\": \"Legacy ASCII\",\n" ++
  "      \"purpose\": \"Real-time control communications\",\n" ++
  "      \"vlan\": \"10 (Control Network)\"\n" ++
  "    \x7d,\n" ++
  "    \"management_protocol\": \x7b\n" ++
  "      \"endpoint\": \"*:8080\",\n" ++
  "      \"protocol\": \"HTTP/JSON\",\n" ++
  "      \"purpose\": \"Status monitoring and configuration\",\n" ++
  "      \"vlan\": \"99 (Management Network)\"\n" ++
  "    \x7d\n" ++
  "  \x7d,\n" ++
  "  \"system_resources\": \x7b\n" ++
  "    \"memory_usage\": \"2KB/64KB\",\n" ++
  "    \"cpu_architecture\": \"x86_64 (Virtual)\",\n" ++
  "    \"memory_limit\": \"Unlimited\"\n" ++
  "  \x7d,\n" ++
  "  \"timestamp\": \"" ++ now ++ "\"\n" ++
  "\x7d\n"

/-- One accepted management connection (`handle_management_connections`,
lines 363-379): the non-blocking `recv` result is modelled by the received
byte string.  A response is produced only when `bytes > 0`; with no bytes
received the connection is closed without any response (`none`). -/
def handle_management_connections (now : String) (st : PLCState) (received : String) :
    Option String :=
  if 0 < received.length then some (process_http_request now st) else none

/-- Logging phase (`log_cycle_data`, lines 518-535): when the log file is
open and `cycle_count % 10 == 0`, one CSV row (timestamp, cycle count,
inputs 0-3, outputs 0-3, hexadecimal error code) is appended; otherwise
nothing is written. -/
def log_cycle_data (logOpen : Bool) (now : String) (s : PLCState) : Option String :=
  if logOpen ∧ s.cycle_count % 10 = 0 then
    some (now ++ "," ++ Nat.repr s.cycle_count ++
      "," ++ Nat.repr (s.inputs ⟨0, by omega⟩) ++
      "," ++ Nat.repr (s.inputs ⟨1, by omega⟩) ++
      "," ++ Nat.repr (s.inputs ⟨2, by omega⟩) ++
      "," ++ Nat.repr (s.inputs ⟨3, by omega⟩) ++
      "," ++ Nat.repr (s.outputs ⟨0, by omega⟩) ++
      "," ++ Nat.repr (s.outputs ⟨1, by omega⟩) ++
      "," ++ Nat.repr (s.outputs ⟨2, by omega⟩) ++
      "," ++ Nat.repr (s.outputs ⟨3, by omega⟩) ++
      "," ++ hexRepr s.error_codes ++ "\n")
  else none

/-- Number of CSV data rows appended while executing one scan cycle per
list element, starting from state `s`; the logger runs on the mid-cycle
state (`cycle_body`), before the counter increment, exactly as in
`run_scan_cycle`. -/
def rows_in_cycles (logOpen : Bool) (now : String) : PLCState → List InputSample → Nat
  | _, [] => 0
  | s, smp :: rest =>
      (if (log_cycle_data logOpen now (cycle_body s smp)).isSome then 1 else 0) +
        rows_in_cycles logOpen now (run_scan_cycle s smp) rest

/-- A fixed arbitrary sensor sample, used to build concrete executions. -/
def sample0 : InputSample :=
  { temperature := 0, cycleIn := 0, runEnable := 0, pressure := 0 }

/-- One hundred cycles' worth of fixed samples. -/
def samples100 : List InputSample :=
  List.replicate 100 sample0

/-- A fixed arbitrary wall-clock timestamp string, used where the code
inserts `get_timestamp()`. -/
def ts0 : String :=
  "2026-10-11 00:00:00"

/-- The state reached after `n` executed scan cycles from the initial
state, all with the fixed sample. -/
def iterPLC : Nat → PLCState
  | 0 => initState
  | n + 1 => run_scan_cycle (iterPLC n) sample0

/-- Mid-cycle state of spec scenario 1: fresh instance, one cycle whose
input sample has temperature 90 and run enable 1 (setpoint register 0 has
its default value 100). -/
def scenario1State : PLCState :=
  cycle_body initState { temperature := 90, cycleIn := 0, runEnable := 1, pressure := 0 }

/-- Mid-cycle state of spec scenario 2: fresh instance, one cycle whose
input sample has temperature 200 (alarm threshold register 1 has its
default value 50). -/
def scenario2State : PLCState :=
  cycle_body initState { temperature := 200, cycleIn := 0, runEnable := 1, pressure := 0 }

/-- A process image holding the largest 16-bit value in general-purpose
register 5; register values range over the full `uint16_t` domain. -/
def wideState : PLCState :=
  { initState with registers := fun i => if i.val = 5 then 65535 else initState.registers i }

/-! ## Helper lemmas -/

/-- Setting bit 0 leaves the mask of bits 1-7 unchanged. -/
theorem or_one_and_mask (e : Nat) : (e ||| 1) &&& 254 = e &&& 254 := by
  rw [Nat.and_distrib_right, show (1 &&& 254 : Nat) = 0 from by decide, Nat.or_zero]

/-- Clearing bit 0 leaves the mask of bits 1-7 unchanged. -/
theorem and_mask_idem (e : Nat) : (e &&& 254) &&& 254 = e &&& 254 := by
  rw [Nat.and_assoc, show (254 &&& 254 : Nat) = 254 from by decide]

/-- After setting bit 0, bit 0 reads as set. -/
theorem or_one_and_one (e : Nat) : (e ||| 1) &&& 1 = 1 := by
  rw [Nat.and_distrib_right, show (1 &&& 1 : Nat) = 1 from by decide]
  rcases Nat.le_one_iff_eq_zero_or_eq_one.mp (Nat.and_le_right : e &&& 1 ≤ 1) with h | h <;>
    rw [h] <;> decide

/-- After clearing bit 0, bit 0 reads as clear. -/
theorem and_mask_and_one (e : Nat) : (e &&& 254) &&& 1 = 0 := by
  rw [Nat.and_assoc, show (254 &&& 1 : Nat) = 0 from by decide, Nat.and_zero]

/-- Error-code field of the mid-cycle state, as computed by rung 3 of
`execute_control_logic`. -/
theorem cycle_body_error_codes (s : PLCState) (smp : InputSample) :
    (cycle_body s smp).error_codes =
      if (scan_inputs s smp).inputs ⟨0, by omega⟩ > s.registers ⟨1, by omega⟩
      then s.error_codes ||| 1 else s.error_codes &&& 254 := rfl

/-- Alarm output of the mid-cycle state, as computed by rung 3 of
`execute_control_logic`. -/
theorem cycle_body_outputs_one (s : PLCState) (smp : InputSample) :
    (cycle_body s smp).outputs ⟨1, by omega⟩ =
      if (scan_inputs s smp).inputs ⟨0, by omega⟩ > s.registers ⟨1, by omega⟩
      then 1 else 0 := rfl

/-- The end-of-cycle increment only touches the cycle counter. -/
theorem run_scan_cycle_outputs (s : PLCState) (smp : InputSample) :
    (run_scan_cycle s smp).outputs = (cycle_body s smp).outputs := rfl

/-- The end-of-cycle increment leaves the error codes of the mid-cycle
state unchanged. -/
theorem run_scan_cycle_error_codes (s : PLCState) (smp : InputSample) :
    (run_scan_cycle s smp).error_codes = (cycle_body s smp).error_codes := rfl

/-- The end-of-cycle increment leaves the registers of the mid-cycle state
unchanged. -/
theorem run_scan_cycle_registers (s : PLCState) (smp : InputSample) :
    (run_scan_cycle s smp).registers = (cycle_body s smp).registers := rfl

/-- The counter increment happens after the mutation phases, on the
wrapping 32-bit counter. -/
theorem run_scan_cycle_count (s : PLCState) (smp : InputSample) :
    (run_scan_cycle s smp).cycle_count = (s.cycle_count + 1) % 4294967296 := rfl

/-- The mutation phases do not change the cycle counter. -/
theorem cycle_body_count (s : PLCState) (smp : InputSample) :
    (cycle_body s smp).cycle_count = s.cycle_count := rfl

/-- In any mid-cycle state the alarm output and bit 0 of the error codes
agree, whatever the previous state was. -/
theorem alarm_consistent_body (s : PLCState) (smp : InputSample) :
    ((cycle_body s smp).outputs ⟨1, by omega⟩ = 1 ↔ (cycle_body s smp).error_codes &&& 1 = 1) := by
  rw [cycle_body_outputs_one, cycle_body_error_codes]
  split
  · simp [or_one_and_one]
  · simp [and_mask_and_one]

/-- One cycle keeps the error codes in {0, 1} when they started there. -/
theorem error_inv_body (s : PLCState) (smp : InputSample)
    (h : s.error_codes = 0 ∨ s.error_codes = 1) :
    (cycle_body s smp).error_codes = 0 ∨ (cycle_body s smp).error_codes = 1 := by
  rw [cycle_body_error_codes]
  split
  · rcases h with h | h <;> rw [h] <;> right <;> decide
  · rcases h with h | h <;> rw [h] <;> left <;> decide

/-- Error codes of every cycle-boundary reachable state are 0 or 1. -/
theorem error_inv_reach (t : PLCState) (h : Reachable t) :
    t.error_codes = 0 ∨ t.error_codes = 1 := by
  induction h with
  | init => left; rfl
  | step smp hs ih =>
      rw [run_scan_cycle_error_codes]
      exact error_inv_body _ _ ih

/-- Taking and dropping the two-character command prefix of an appended
string. -/
theorem take_drop_two (a b : Char) (t : String) :
    (String.mk [a, b] ++ t).take 2 = String.mk [a, b]
    ∧ (String.mk [a, b] ++ t).drop 2 = t := by
  constructor
  · apply String.ext
    simp
  · apply String.ext
    simp

set_option maxRecDepth 20000 in
/-- Parsing the decimal rendering of a small address with `stoi` returns
the address itself. -/
theorem stoi_repr : ∀ a : Nat, a < 256 → stoi (Nat.repr a) = .ok (Int.ofNat a) := by
  decide

/-- The printed width under `setw(4)` is the maximum of 4 and the natural
decimal width. -/
theorem zpad4_length_max (v : Nat) : (zpad4 v).length = max 4 (Nat.repr v).length := by
  simp [zpad4, zpadLeft, String.length_append]
  omega

/-- Values up to 9999 print as exactly four characters under `setw(4)`
with zero fill. -/
theorem zpad4_length_small (v : Nat) (h : v < 10000) : (zpad4 v).length = 4 := by
  have h1 : (Nat.repr v).length ≤ 4 := Nat.repr_length v 4 (by omega) (by omega)
  simp [zpad4, zpadLeft, String.length_append]
  omega

/-- Whether the logger writes a row depends only on the log being open and
the cycle count being a multiple of 10. -/
theorem log_row_isSome (logOpen : Bool) (now : String) (t : PLCState) :
    (log_cycle_data logOpen now t).isSome = (logOpen && decide (t.cycle_count % 10 = 0)) := by
  cases logOpen <;> by_cases h : t.cycle_count % 10 = 0 <;> simp [log_cycle_data, h]

/-- The number of logged rows over a run equals the number of cycle
indices whose (wrapped) cycle count is a multiple of 10. -/
theorem rows_count (now : String) :
    ∀ (smps : List InputSample) (s : PLCState), s.cycle_count < 4294967296 →
      rows_in_cycles true now s smps =
        (List.range smps.length).countP
          (fun k => decide ((s.cycle_count + k) % 4294967296 % 10 = 0)) := by
  intro smps
  induction smps with
  | nil => intro s _; simp [rows_in_cycles]
  | cons smp rest ih =>
      intro s hs
      rw [List.length_cons, List.range_succ_eq_map, List.countP_cons, List.countP_map,
        rows_in_cycles]
      have h1 : rows_in_cycles true now (run_scan_cycle s smp) rest =
          (List.range rest.length).countP
            (fun k => decide (((s.cycle_count + 1) % 4294967296 + k) % 4294967296 % 10 = 0)) := by
        have h := ih (run_scan_cycle s smp) (by rw [run_scan_cycle_count]; exact Nat.mod_lt _ (by omega))
        rw [run_scan_cycle_count] at h
        exact h
      have h2 : (List.range rest.length).countP
            (fun k => decide (((s.cycle_count + 1) % 4294967296 + k) % 4294967296 % 10 = 0)) =
          (List.range rest.length).countP
            ((fun k => decide ((s.cycle_count + k) % 4294967296 % 10 = 0)) ∘ Nat.succ) := by
        apply List.countP_congr
        intro k _
        simp only [Function.comp_apply, decide_eq_true_eq, Nat.succ_eq_add_one, Nat.mod_add_mod]
        have he : s.cycle_count + 1 + k = s.cycle_count + (k + 1) := by omega
        rw [he]
      have h3 : (log_cycle_data true now (cycle_body s smp)).isSome =
          decide ((s.cycle_count + 0) % 4294967296 % 10 = 0) := by
        rw [log_row_isSome, cycle_body_count]
        simp only [Bool.true_and]
        rw [Nat.add_zero, Nat.mod_eq_of_lt hs]
      rw [h1, h2, h3]
      omega

set_option maxRecDepth 20000 in
/-- In any window of 100 consecutive integers starting at a residue below
10 there are exactly 10 multiples of 10. -/
theorem count_mult10 : ∀ r : Nat, r < 10 →
    (List.range 100).countP (fun k => decide ((r + k) % 10 = 0)) = 10 := by
  decide

/-- Every iterate of the scan cycle from the initial state is reachable. -/
theorem iterPLC_reachable (n : Nat) : Reachable (iterPLC n) := by
  induction n with
  | zero => exact Reachable.init
  | succ n ih => exact Reachable.step sample0 ih

/-- The cycle counter after `n` executed cycles is `n` modulo `2^32`. -/
theorem iterPLC_count (n : Nat) : (iterPLC n).cycle_count = n % 4294967296 := by
  induction n with
  | zero => rfl
  | succ n ih => rw [iterPLC, run_scan_cycle_count, ih, Nat.mod_add_mod]

/-! ## Claim theorems -/

/-- C1: evaluation of the code at the failing inputs.  The claim says every
`RI`/`RO`/`RR` command with a non-numeric or overflowing address part gets
the response `ERR1\r\n` without crashing; the code instead calls
`std::stoi` with no handler in scope, so `RIabc` raises
`std::invalid_argument` and an address beyond the `int` range raises
`std::out_of_range`, either of which terminates the process.  (Negative
and in-`int`-range out-of-bounds addresses do get `ERR1\r\n`.) -/
theorem C1_parse_crash_eval :
    process_legacy_command ts0 initState "RIabc" = .error .invalidArgument
    ∧ process_legacy_command ts0 initState "RO99999999999999" = .error .outOfRange
    ∧ process_legacy_command ts0 initState "RI-3" = .ok ("ERR1" ++ "\r\n")
    ∧ process_legacy_command ts0 initState "RR300" = .ok ("ERR1" ++ "\r\n") := by
  refine ⟨rfl, rfl, rfl, rfl⟩

/-- C2 counterexample: the claim demands `registers[20] = cycleCount mod
65536` also at the end of an executed cycle, but `execute_control_logic`
stores the pre-increment counter and `cycle_count++` runs afterwards: after
the very first cycle the register holds 0 while the counter holds 1. -/
theorem C2_counterexample :
    ¬ ((run_scan_cycle initState sample0).registers ⟨20, by omega⟩ =
        (run_scan_cycle initState sample0).cycle_count % 65536) := by
  decide

/-- C2 (amended): in every state the protocol handlers can observe (after
the control-program evaluation, before the end-of-cycle increment)
`registers[20] = cycleCount mod 65536`; the end-of-cycle increment then
advances the counter, so at a cycle boundary the register holds the
previous counter value modulo 65536. -/
theorem C2_register20_tracks_counter (s : PLCState) (smp : InputSample) :
    (cycle_body s smp).registers ⟨20, by omega⟩ = (cycle_body s smp).cycle_count % 65536
    ∧ (run_scan_cycle s smp).registers ⟨20, by omega⟩ = s.cycle_count % 65536
    ∧ (run_scan_cycle s smp).cycle_count = (s.cycle_count + 1) % 4294967296 := by
  have hreg : (cycle_body s smp).registers ⟨20, by omega⟩ = s.cycle_count &&& 65535 := rfl
  have hmod : s.cycle_count &&& 65535 = s.cycle_count % 65536 := by
    have := Nat.and_pow_two_sub_one_eq_mod s.cycle_count 16
    norm_num at this
    exact this
  refine ⟨?_, ?_, rfl⟩
  · rw [hreg, cycle_body_count, hmod]
  · rw [run_scan_cycle_registers, hreg, hmod]

/-- C3: in every observable state of the process image (cycle boundaries
and the mid-cycle states the protocol handlers see), `outputs[1] = 1` iff
bit 0 of `errorCodes` is set: rung 3 always writes both together. -/
theorem C3_alarm_error_consistency (t : PLCState) (h : Observable t) :
    (t.outputs ⟨1, by omega⟩ = 1 ↔ t.error_codes &&& 1 = 1) := by
  rcases h with hr | ⟨s, smp, _, rfl⟩
  · induction hr with
    | init => decide
    | step smp hs ih =>
        rw [run_scan_cycle_outputs, run_scan_cycle_error_codes]
        exact alarm_consistent_body _ _
  · exact alarm_consistent_body _ _

/-- Witness for C3 at the initial state. -/
theorem C3_alarm_error_consistency_witness :
    (initState.outputs ⟨1, by omega⟩ = 1 ↔ initState.error_codes &&& 1 = 1) :=
  C3_alarm_error_consistency initState (Or.inl Reachable.init)

/-- C4 counterexample: the claim demands the response `ERR0\r\n` for every
command that is not exactly one of the recognized forms, including those
that merely begin with a recognized prefix; but dispatch is by prefix, so
`RO0abc` reads output 0 and `STATUSxyz` answers as `STATUS`. -/
theorem C4_counterexample :
    process_legacy_command ts0 initState "RO0abc" = .ok ("0000" ++ "\r\n")
    ∧ process_legacy_command ts0 initState "STATUSxyz" ≠ .ok ("ERR0" ++ "\r\n") := by
  refine ⟨rfl, ?_⟩
  decide

/-- C4 (amended): every command whose first two characters are none of
`RI`, `RO`, `RR` and whose first six characters are not `STATUS` gets
exactly the response `ERR0\r\n`. -/
theorem C4_unknown_command (now : String) (st : PLCState) (cmd : String)
    (h1 : cmd.take 2 ≠ "RI") (h2 : cmd.take 2 ≠ "RO") (h3 : cmd.take 2 ≠ "RR")
    (h4 : cmd.take 6 ≠ "STATUS") :
    process_legacy_command now st cmd = .ok ("ERR0" ++ "\r\n") := by
  unfold process_legacy_command
  rw [if_neg h1, if_neg h2, if_neg h3, if_neg h4]

/-- Witness for C4 (amended) at the concrete command `HELLO`. -/
theorem C4_unknown_command_witness :
    process_legacy_command ts0 initState "HELLO" = .ok ("ERR0" ++ "\r\n") :=
  C4_unknown_command ts0 initState "HELLO" (by decide) (by decide) (by decide) (by decide)

/-- C7: the heater rung: in the state produced by the control-program
evaluation, `outputs[0] = 1` iff the run-enable input equals 1 and the
temperature input is below the setpoint register, and otherwise
`outputs[0] = 0`; in spec scenario 1 (fresh instance, temperature 90,
run enable 1, default setpoint 100) one cycle turns the heater on. -/
theorem C7_heater_rule :
    (∀ s : PLCState,
      ((execute_control_logic s).outputs ⟨0, by omega⟩ = 1 ↔
        (s.inputs ⟨2, by omega⟩ = 1 ∧ s.inputs ⟨0, by omega⟩ < s.registers ⟨0, by omega⟩))
      ∧ ((execute_control_logic s).outputs ⟨0, by omega⟩ = 1 ∨
         (execute_control_logic s).outputs ⟨0, by omega⟩ = 0))
    ∧ scenario1State.outputs ⟨0, by omega⟩ = 1 := by
  refine ⟨fun s => ⟨?_, ?_⟩, rfl⟩
  · show (if _ ∧ _ then (1 : Nat) else 0) = 1 ↔ _
    split <;> simp_all
  · show (if _ ∧ _ then (1 : Nat) else 0) = 1 ∨ (if _ ∧ _ then (1 : Nat) else 0) = 0
    split
    · left; rfl
    · right; rfl

/-- C9: frame of one executed scan cycle: only inputs 0-3, outputs 0, 1
and 15, registers 20, 100 and 101, bit 0 of the error codes and the cycle
counter can change; every other array slot, bits 1-7 of the error codes,
`last_error` and `running` are unchanged. -/
theorem C9_cycle_frame (s : PLCState) (smp : InputSample) :
    (∀ i : Fin 16, 3 < i.val → (run_scan_cycle s smp).inputs i = s.inputs i)
    ∧ (∀ i : Fin 16, i.val ≠ 0 → i.val ≠ 1 → i.val ≠ 15 →
        (run_scan_cycle s smp).outputs i = s.outputs i)
    ∧ (∀ i : Fin 256, i.val ≠ 20 → i.val ≠ 100 → i.val ≠ 101 →
        (run_scan_cycle s smp).registers i = s.registers i)
    ∧ (run_scan_cycle s smp).error_codes &&& 254 = s.error_codes &&& 254
    ∧ (run_scan_cycle s smp).last_error = s.last_error
    ∧ (run_scan_cycle s smp).running = s.running
    ∧ (run_scan_cycle s smp).cycle_count = (s.cycle_count + 1) % 4294967296 := by
  refine ⟨?_, ?_, ?_, ?_, rfl, rfl, rfl⟩
  · intro i h
    have h0 : ¬ i.val = 0 := by omega
    have h1 : ¬ i.val = 1 := by omega
    have h2 : ¬ i.val = 2 := by omega
    have h3 : ¬ i.val = 3 := by omega
    simp [run_scan_cycle, cycle_body, update_outputs, execute_control_logic, scan_inputs,
      h0, h1, h2, h3]
  · intro i h0 h1 h15
    simp [run_scan_cycle, cycle_body, update_outputs, execute_control_logic, scan_inputs,
      h0, h1, h15]
  · intro i h20 h100 h101
    simp [run_scan_cycle, cycle_body, update_outputs, execute_control_logic, scan_inputs,
      h20, h100, h101]
  · rw [run_scan_cycle_error_codes, cycle_body_error_codes]
    split
    · exact or_one_and_mask _
    · exact and_mask_idem _

/-- Witness for C9 at concrete untouched indices of a concrete cycle. -/
theorem C9_cycle_frame_witness :
    (run_scan_cycle initState sample0).registers ⟨10, by omega⟩ = initState.registers ⟨10, by omega⟩
    ∧ (run_scan_cycle initState sample0).outputs ⟨7, by omega⟩ = initState.outputs ⟨7, by omega⟩
    ∧ (run_scan_cycle initState sample0).inputs ⟨9, by omega⟩ = initState.inputs ⟨9, by omega⟩ :=
  ⟨(C9_cycle_frame initState sample0).2.2.1 ⟨10, by omega⟩ (by decide) (by decide) (by decide),
   (C9_cycle_frame initState sample0).2.1 ⟨7, by omega⟩ (by decide) (by decide) (by decide),
   (C9_cycle_frame initState sample0).1 ⟨9, by omega⟩ (by decide)⟩

/-- C10: in every observable state the error bitmask is 0x00 or 0x01: the
initial state has 0 and rung 3 only ever sets or clears bit 0, so bits 1-7
are never set. -/
theorem C10_error_codes_bounded (t : PLCState) (h : Observable t) :
    t.error_codes = 0 ∨ t.error_codes = 1 := by
  rcases h with hr | ⟨s, smp, hs, rfl⟩
  · exact error_inv_reach t hr
  · exact error_inv_body s smp (error_inv_reach s hs)

/-- Witness for C10 at the initial state. -/
theorem C10_error_codes_bounded_witness :
    initState.error_codes = 0 ∨ initState.error_codes = 1 :=
  C10_error_codes_bounded initState (Or.inl Reachable.init)

/-- Binding an `ok` result continues with the parsed value. -/
theorem except_bind_ok {α β : Type} (a : α) (f : α → Except CppException β) :
    (Except.ok a).bind f = f a := rfl

/-- Prefix dispatch for `RI` commands. -/
theorem take_drop_RI (t : String) :
    ("RI" ++ t).take 2 = "RI" ∧ ("RI" ++ t).drop 2 = t :=
  take_drop_two 'R' 'I' t

/-- Prefix dispatch for `RO` commands. -/
theorem take_drop_RO (t : String) :
    ("RO" ++ t).take 2 = "RO" ∧ ("RO" ++ t).drop 2 = t :=
  take_drop_two 'R' 'O' t

/-- Prefix dispatch for `RR` commands. -/
theorem take_drop_RR (t : String) :
    ("RR" ++ t).take 2 = "RR" ∧ ("RR" ++ t).drop 2 = t :=
  take_drop_two 'R' 'R' t

/-- The `RI` branch of `process_legacy_command` on an in-range parsed
address reads the input array. -/
theorem process_RI_ok (now : String) (st : PLCState) (cmd : String) (a : Nat)
    (htake : cmd.take 2 = "RI") (hdrop : stoi (cmd.drop 2) = .ok (Int.ofNat a))
    (ha : a < 16) :
    process_legacy_command now st cmd = .ok (zpad4 (st.inputs ⟨a, ha⟩) ++ "\r\n") := by
  unfold process_legacy_command
  rw [htake, if_pos rfl, hdrop, except_bind_ok,
    dif_pos (⟨Int.ofNat_nonneg a, Int.ofNat_lt.mpr ha⟩ :
      0 ≤ Int.ofNat a ∧ Int.ofNat a < 16)]
  rfl

/-- The `RO` branch of `process_legacy_command` on an in-range parsed
address reads the output array. -/
theorem process_RO_ok (now : String) (st : PLCState) (cmd : String) (a : Nat)
    (htake : cmd.take 2 = "RO") (hdrop : stoi (cmd.drop 2) = .ok (Int.ofNat a))
    (ha : a < 16) :
    process_legacy_command now st cmd = .ok (zpad4 (st.outputs ⟨a, ha⟩) ++ "\r\n") := by
  unfold process_legacy_command
  rw [htake, if_neg (by decide), if_pos rfl, hdrop, except_bind_ok,
    dif_pos (⟨Int.ofNat_nonneg a, Int.ofNat_lt.mpr ha⟩ :
      0 ≤ Int.ofNat a ∧ Int.ofNat a < 16)]
  rfl

/-- The `RR` branch of `process_legacy_command` on an in-range parsed
address reads the register array. -/
theorem process_RR_ok (now : String) (st : PLCState) (cmd : String) (a : Nat)
    (htake : cmd.take 2 = "RR") (hdrop : stoi (cmd.drop 2) = .ok (Int.ofNat a))
    (ha : a < 256) :
    process_legacy_command now st cmd = .ok (zpad4 (st.registers ⟨a, ha⟩) ++ "\r\n") := by
  unfold process_legacy_command
  rw [htake, if_neg (by decide), if_neg (by decide), if_pos rfl, hdrop, except_bind_ok,
    dif_pos (⟨Int.ofNat_nonneg a, Int.ofNat_lt.mpr ha⟩ :
      0 ≤ Int.ofNat a ∧ Int.ofNat a < 256)]
  rfl

/-- C5 counterexample: the claim demands a 4-digit zero-padded rendering
(so, with CRLF, a 6-character response) for every stored 16-bit value, but
`setw(4)` only sets a minimum width: reading a register holding 65535
yields the 7-character response `65535\r\n`. -/
theorem C5_counterexample :
    process_legacy_command ts0 wideState "RR5" = .ok "65535\r\n"
    ∧ ("65535\r\n" : String).length ≠ 6 := by
  exact ⟨rfl, by decide⟩

/-- C5 (amended): for every in-range address, the `RI`/`RO`/`RR` response
is the decimal rendering of the stored value left-zero-padded to a minimum
width of four, followed by CRLF: exactly four digits for values up to
9999, and the full wider rendering for larger values; in spec scenario 2,
`RR1` answers `0050\r\n` and `RO1` answers `0001\r\n`. -/
theorem C5_read_response_format (now : String) (st : PLCState) (a : Nat) (ha : a < 256) :
    process_legacy_command now st ("RR" ++ Nat.repr a) =
      .ok (zpad4 (st.registers ⟨a, ha⟩) ++ "\r\n")
    ∧ (∀ h16 : a < 16,
        process_legacy_command now st ("RI" ++ Nat.repr a) =
          .ok (zpad4 (st.inputs ⟨a, h16⟩) ++ "\r\n")
        ∧ process_legacy_command now st ("RO" ++ Nat.repr a) =
          .ok (zpad4 (st.outputs ⟨a, h16⟩) ++ "\r\n"))
    ∧ (∀ v : Nat, (zpad4 v).length = max 4 (Nat.repr v).length)
    ∧ (∀ v : Nat, v < 10000 → (zpad4 v).length = 4)
    ∧ process_legacy_command now scenario2State "RR1" = .ok ("0050" ++ "\r\n")
    ∧ process_legacy_command now scenario2State "RO1" = .ok ("0001" ++ "\r\n") := by
  have hstoiR : stoi (("RR" ++ Nat.repr a).drop 2) = .ok (Int.ofNat a) := by
    rw [(take_drop_RR (Nat.repr a)).2]; exact stoi_repr a ha
  refine ⟨process_RR_ok now st _ a (take_drop_RR (Nat.repr a)).1 hstoiR ha,
    fun h16 => ⟨?_, ?_⟩, zpad4_length_max, zpad4_length_small, rfl, rfl⟩
  · have hstoiI : stoi (("RI" ++ Nat.repr a).drop 2) = .ok (Int.ofNat a) := by
      rw [(take_drop_RI (Nat.repr a)).2]; exact stoi_repr a ha
    exact process_RI_ok now st _ a (take_drop_RI (Nat.repr a)).1 hstoiI h16
  · have hstoiO : stoi (("RO" ++ Nat.repr a).drop 2) = .ok (Int.ofNat a) := by
      rw [(take_drop_RO (Nat.repr a)).2]; exact stoi_repr a ha
    exact process_RO_ok now st _ a (take_drop_RO (Nat.repr a)).1 hstoiO h16

/-- Witness for C5 (amended) at register address 10 and input address 10
of the initial state. -/
theorem C5_read_response_format_witness :
    process_legacy_command ts0 initState ("RR" ++ Nat.repr 10) =
      .ok (zpad4 (initState.registers ⟨10, by decide⟩) ++ "\r\n")
    ∧ process_legacy_command ts0 initState ("RI" ++ Nat.repr 10) =
      .ok (zpad4 (initState.inputs ⟨10, by decide⟩) ++ "\r\n") :=
  ⟨(C5_read_response_format ts0 initState 10 (by decide)).1,
   ((C5_read_response_format ts0 initState 10 (by decide)).2.1 (by decide)).1⟩

/-- C8 counterexample: the claim demands exactly 10 data rows over every
window of 100 consecutive executed cycles, but the logging condition tests
the wrapping 32-bit counter: in the reachable window starting at cycle
count 4294967290 = 2^32 - 6 the counter wraps to 0 (itself a multiple of
10) after six cycles, so 11 rows are written. -/
theorem C8_counterexample :
    Reachable (iterPLC 4294967290)
    ∧ (iterPLC 4294967290).cycle_count = 4294967290
    ∧ samples100.length = 100
    ∧ rows_in_cycles true ts0 (iterPLC 4294967290) samples100 = 11
    ∧ rows_in_cycles true ts0 (iterPLC 4294967290) samples100 ≠ 10 := by
  have hc : (iterPLC 4294967290).cycle_count = 4294967290 := by
    rw [iterPLC_count]
  have hrows : rows_in_cycles true ts0 (iterPLC 4294967290) samples100 = 11 := by
    rw [rows_count ts0 samples100 _ (by rw [hc]; omega)]
    simp only [samples100, List.length_replicate, hc]
    decide
  exact ⟨iterPLC_reachable _, hc, by simp [samples100], hrows, by rw [hrows]; omega⟩

/-- C8 (amended): with the log file open, one CSV data row is written on
exactly the cycles whose (pre-increment) cycle count is a multiple of 10
and never with the log closed, and any 100 consecutive executed cycles
during which the 32-bit counter does not wrap produce exactly 10 data
rows (a window spanning the wrap can produce 11). -/
theorem C8_log_rows (now : String) (s : PLCState) (smps : List InputSample)
    (h1 : smps.length = 100) (h2 : s.cycle_count + 100 ≤ 4294967296) :
    rows_in_cycles true now s smps = 10
    ∧ (∀ t : PLCState, (log_cycle_data true now t).isSome ↔ t.cycle_count % 10 = 0)
    ∧ (∀ t : PLCState, log_cycle_data false now t = none) := by
  refine ⟨?_, ?_, ?_⟩
  · rw [rows_count now smps s (by omega), h1]
    have hco : ∀ k ∈ List.range 100,
        (decide ((s.cycle_count + k) % 4294967296 % 10 = 0) : Prop) ↔
          (decide ((s.cycle_count % 10 + k) % 10 = 0) : Prop) := by
      intro k hk
      rw [List.mem_range] at hk
      simp only [decide_eq_true_eq]
      have hlt : s.cycle_count + k < 4294967296 := by omega
      rw [Nat.mod_eq_of_lt hlt, Nat.mod_add_mod]
    rw [List.countP_congr hco]
    exact count_mult10 (s.cycle_count % 10) (Nat.mod_lt _ (by omega))
  · intro t
    rw [log_row_isSome]
    simp
  · intro t
    rfl

/-- Witness for C8 (amended): the first 100 cycles from the initial state
log exactly 10 rows. -/
theorem C8_log_rows_witness :
    rows_in_cycles true ts0 initState samples100 = 10 :=
  (C8_log_rows ts0 initState samples100 (by simp [samples100]) (by decide)).1

/-- C6 counterexample: the claim demands the HTTP/JSON response on every
accepted connection, including one on which zero bytes were received; but
`handle_management_connections` only responds when `recv` returned a
positive byte count, so a connection with no received bytes is closed with
no response at all. -/
theorem C6_counterexample :
    handle_management_connections ts0 initState "" = none := rfl

/-- C6 (amended): on every accepted management connection on which at
least one byte was received, the server sends the fixed-shape HTTP/JSON
response regardless of the request content, and its body contains
`"uptime_cycles": ` followed by the current cycle count. -/
theorem C6_mgmt_response (now : String) (st : PLCState) (received : String)
    (h : 0 < received.length) :
    handle_management_connections now st received = some (process_http_request now st)
    ∧ ∃ pre post : String,
        process_http_request now st =
          pre ++ ("\"uptime_cycles\": " ++ Nat.repr st.cycle_count) ++ post := by
  constructor
  · simp [handle_management_connections, h]
  · refine ⟨"HTTP/1.1 200 OK\r\n" ++
      "Content-Type: application/json\r\n" ++
      "Access-Control-Allow-Origin: *\r\n" ++
      "Cache-Control: no-cache\r\n" ++
      "Connection: close\r\n" ++
      "\r\n" ++
      "\x7b\n" ++
      "  \"device_info\": \x7b\n" ++
      "    \"name\": \"Legacy PLC Simulator\",\n" ++
      "    \"version\": \"2.1\",\n" ++
      "    \"model\": \"Schneider/Modicon TSX Premium (circa 2004)\",\n" ++
      "    \"mode\": \"Physical Raspberry Pi\",\n" ++
      "    \"hardware\": \"Pi B v2 - 512MB RAM\",\n" ++
      "    ",
      "\n" ++
      "  \x7d,\n" ++
      "  \"operational_status\": \x7b\n" ++
      "    \"status\": \"" ++ (if st.running then "RUNNING" else "STOPPED") ++ "\",\n" ++
      "    \"scan_rate_ms\": 100,\n" ++
      "    \"error_codes\": \"0x" ++ hexRepr st.error_codes ++ "\",\n" ++
      "    \"last_error\": \"" ++ st.last_error ++ "\"\n" ++
      "  \x7d,\n" ++
      "  \"process_data\": \x7b\n" ++
      "    \"inputs\": \x7b\n" ++
      "      \"temperature_raw\": " ++ Nat.repr (st.inputs ⟨0, by omega⟩) ++ ",\n" ++
      "      \"cycle_input\": " ++ Nat.repr (st.inputs ⟨1, by omega⟩) ++ ",\n" ++
      "      \"run_enable\": " ++ Nat.repr (st.inputs ⟨2, by omega⟩) ++ ",\n" ++
      "      \"pressure_raw\": " ++ Nat.repr (st.inputs ⟨3, by omega⟩) ++ "\n" ++
      "    \x7d,\n" ++
      "    \"outputs\": \x7b\n" ++
      "      \"heater_command\": " ++ Nat.repr (st.outputs ⟨0, by omega⟩) ++ ",\n" ++
      "      \"high_temp_alarm\": " ++ Nat.repr (st.outputs ⟨1, by omega⟩) ++ ",\n" ++
      "      \"heartbeat_led\": " ++ Nat.repr (st.outputs ⟨15, by omega⟩) ++ "\n" ++
      "    \x7d,\n" ++
      "    \"registers\": \x7b\n" ++
      "      \"temperature_setpoint\": " ++ Nat.repr (st.registers ⟨0, by omega⟩) ++ ",\n" ++
      "      \"alarm_threshold\": " ++ Nat.repr (st.registers ⟨1, by omega⟩) ++ ",\n" ++
      "      \"current_temperature\": " ++ Nat.repr (st.registers ⟨100, by omega⟩) ++ ",\n" ++
      "      \"heater_status\": " ++ Nat.repr (st.registers ⟨101, by omega⟩) ++ "\n" ++
      "    \x7d\n" ++
      "  \x7d,\n" ++
      "  \"network_interfaces\": \x7b\n" ++
      "    \"control_protocol\": \x7b\n" ++
      "      \"endpoint\": \"*:9001\",\n" ++
      "      \"protocol\": \"Legacy ASCII\",\n" ++
      "      \"purpose\": \"Real-time control communications\",\n" ++
      "      \"vlan\": \"10 (Control Network)\"\n" ++
      "    \x7d,\n" ++
      "    \"management_protocol\": \x7b\n" ++
      "      \"endpoint\": \"*:8080\",\n" ++
      "      \"protocol\": \"HTTP/JSON\",\n" ++
      "      \"purpose\": \"Status monitoring and configuration\",\n" ++
      "      \"vlan\": \"99 (Management Network)\"\n" ++
      "    \x7d\n" ++
      "  \x7d,\n" ++
      "  \"system_resources\": \x7b\n" ++
      "    \"memory_usage\": \"2KB/64KB\",\n" ++
      "    \"cpu_architecture\": \"x86_64 (Virtual)\",\n" ++
      "    \"memory_limit\": \"Unlimited\"\n" ++
      "  \x7d,\n" ++
      "  \"timestamp\": \"" ++ now ++ "\"\n" ++
      "\x7d\n", ?_⟩
    have hsplit : ("    \"uptime_cycles\": " : String) = "    " ++ "\"uptime_cycles\": " := rfl
    simp only [process_http_request, hsplit, String.append_assoc]

/-- Witness for C6 (amended) on a concrete nonempty request. -/
theorem C6_mgmt_response_witness :
    handle_management_connections ts0 initState "GET" =
      some (process_http_request ts0 initState) :=
  (C6_mgmt_response ts0 initState "GET" (by decide)).1

end LegacyPLC
